import Mathlib

/-!
Shallow embedding of the Telegram monitoring bot (poller mode `src/bot.ts`,
webhook mode server file) and proofs about its dispatch, offset and fan-out
logic.

External I/O (the Telegram API, the GitHub API, the clock) is modelled by
environment records: each outgoing call is recorded as an event in a trace,
and the environment decides, per call, whether the call succeeds or throws.
A JavaScript exception is modelled by the `Except` error constructor; the
error value carries the effect state at the moment of the throw, because in
the source the effects performed before a throw have already happened.
-/

namespace TgBot

/-- Payload of `update.message`: a chat id (a number in the source, rendered
with `String(...)` for the authorization comparison) and optional text. -/
structure Message where
  chatId : Int
  text : Option String
deriving DecidableEq, Repr

/-- One Telegram update, as both source files declare it: an `update_id`
and an optional message. -/
structure TelegramUpdate where
  update_id : Nat
  message : Option Message
deriving DecidableEq, Repr

/-- A workflow run record as declared in the webhook file: `event`,
`status`, nullable `conclusion`, `created_at`. -/
structure WorkflowRun where
  event : String
  status : String
  conclusion : Option String
  created_at : String
deriving DecidableEq, Repr

/-- An observable outgoing call: a notification send (`sendMessage` /
`sendTelegramMessage`), a workflow dispatch (`dispatchWorkflow`), or a
latest-run status query (`getLatestWorkflowRun`). -/
inductive Eff
  | send (text : String)
  | dispatch (wf : String)
  | query (wf : String)
deriving DecidableEq, Repr

/-- Effect state threaded through a handler: how many notification sends and
workflow dispatches have been attempted so far (used to index the
environment's per-call outcomes) and the chronological trace of calls. -/
structure St where
  sendCount : Nat
  dispCount : Nat
  trace : List Eff
deriving DecidableEq, Repr

/-- Initial effect state of a cycle or request. -/
def St.init : St := ⟨0, 0, []⟩

/-- JavaScript `String.prototype.trim`: strip leading and trailing
whitespace (the source's command texts only involve ASCII whitespace, which
`Char.isWhitespace` covers). Implemented over the character list so that it
evaluates by kernel reduction. -/
def jsTrim (s : String) : String :=
  String.mk
    (((s.data.dropWhile Char.isWhitespace).reverse.dropWhile
        Char.isWhitespace).reverse)

/-! ## Poller mode (`src/bot.ts`) -/

/-- `BOT_UPDATE_KEY` from `src/bot.ts`. -/
def BOT_UPDATE_KEY : String := "__bot_last_update_id__"

/-- `MONITOR_WORKFLOWS` from `src/bot.ts`. -/
def MONITOR_WORKFLOWS : List String :=
  ["monitor-instocktrades.yml", "monitor-ebay.yml"]

/-- Environment of a poller cycle: the two credentials read from the
process environment, and per-call outcomes for the external HTTP calls.
`sendOk n` tells whether the n-th `sendMessage` fetch resolves at the
network level (the poller's `sendMessage` never inspects the HTTP status,
so only a rejected fetch throws); `dispatchOk n` tells whether the n-th
`dispatchWorkflow` call completes without throwing (credentials present,
fetch resolves and `res.ok`). -/
structure PollerEnv where
  token : String
  chatId : String
  sendOk : Nat → Bool
  dispatchOk : Nat → Bool

/-- `sendMessage` of `src/bot.ts`: performs the fetch (recorded in the
trace), throws iff the fetch rejects. The HTTP status is not checked. -/
def sendMessageP (env : PollerEnv) (text : String) (st : St) : Except St St :=
  let st' : St := { st with sendCount := st.sendCount + 1,
                            trace := st.trace ++ [Eff.send text] }
  if env.sendOk st.sendCount then Except.ok st' else Except.error st'

/-- `dispatchWorkflow` of `src/bot.ts`: performs the dispatch call, throws
iff the call fails (missing credentials, network error or non-ok status). -/
def dispatchWorkflowP (env : PollerEnv) (wf : String) (st : St) : Except St St :=
  let st' : St := { st with dispCount := st.dispCount + 1,
                            trace := st.trace ++ [Eff.dispatch wf] }
  if env.dispatchOk st.dispCount then Except.ok st' else Except.error st'

/-- The `for (const workflowFile of ...) await dispatchWorkflow(...)` loop
inside the `/trigger` branch: sequential, in list order, stops at the first
throw. -/
def triggerLoopP (env : PollerEnv) : List String → St → Except St St
  | [], st => Except.ok st
  | wf :: rest, st =>
    match dispatchWorkflowP env wf st with
    | Except.ok st' => triggerLoopP env rest st'
    | Except.error st' => Except.error st'

/-- The `/trigger` branch of `src/bot.ts` `main`, generalized over the job
list the loop iterates: send the starting notification (uncaught), then
`try` the dispatch loop followed by the success notification, `catch`-ing
any throw with the single failure notification (whose own throw is not
caught). -/
def handleTriggerListP (env : PollerEnv) (jobs : List String) (st : St) :
    Except St St :=
  match sendMessageP env "⚡ Triggering monitor workflows..." st with
  | Except.error s => Except.error s
  | Except.ok s =>
    match (match triggerLoopP env jobs s with
           | Except.ok s2 =>
             sendMessageP env "✅ Monitor workflows dispatched." s2
           | Except.error s2 => Except.error s2) with
    | Except.ok s3 => Except.ok s3
    | Except.error s3 =>
      sendMessageP env "❌ Failed to trigger monitor workflows." s3

/-- The `/trigger` branch applied to the configured `MONITOR_WORKFLOWS`. -/
def handleTriggerP (env : PollerEnv) (st : St) : Except St St :=
  handleTriggerListP env MONITOR_WORKFLOWS st

/-- Body of the `for (const update of data.result)` loop of `main` for one
update: raise `newLastId` to the update id, then the admission checks
(`!msg || String(msg.chat.id) !== chatId`), then exact-match routing of the
trimmed text over `/test` and `/trigger`; any other text falls through
silently. A throw aborts the whole loop. -/
def procUpdateP (env : PollerEnv) (u : TelegramUpdate) (n : Nat) (st : St) :
    Except St (Nat × St) :=
  let n' := max n u.update_id
  match u.message with
  | none => Except.ok (n', st)
  | some msg =>
    if toString msg.chatId = env.chatId then
      let text := (msg.text.map jsTrim).getD ""
      if text = "/test" then
        (sendMessageP env "✅ Bot is alive and running." st).map (fun s => (n', s))
      else if text = "/trigger" then
        (handleTriggerP env st).map (fun s => (n', s))
      else Except.ok (n', st)
    else Except.ok (n', st)

/-- The update loop of `main`: folds `procUpdateP` over the batch, carrying
`newLastId` and the effect state; the first uncaught throw aborts it. -/
def pollLoopP (env : PollerEnv) : List TelegramUpdate → Nat → St →
    Except St (Nat × St)
  | [], n, st => Except.ok (n, st)
  | u :: rest, n, st =>
    match procUpdateP env u n st with
    | Except.ok (n', st') => pollLoopP env rest n' st'
    | Except.error s => Except.error s

/-! ### The state store -/

/-- The flat string-to-string store persisted in `state.json`, as an
association list (the JSON object's entries in order). -/
def lookupKey : List (String × String) → String → Option String
  | [], _ => none
  | (k', v) :: rest, k => if k' = k then some v else lookupKey rest k

/-- JavaScript object assignment `state[key] = value`: an existing key keeps
its position and gets the new value, a fresh key is appended. -/
def setKey (m : List (String × String)) (k v : String) :
    List (String × String) :=
  if m.any (fun p => p.1 = k) then
    m.map (fun p => if p.1 = k then (k, v) else p)
  else m ++ [(k, v)]

/-- Models JavaScript `Number(s)` on the canonical decimal strings the bot
itself persists (`String(n)` for a non-negative integer `n`), with
`Number("") = 0` for the `?? "0"` default path. Non-numeric content (which
in the source would yield `NaN` and a nonsensical fetch offset) is mapped
to `0`; the claims only exercise canonical offsets. -/
def jsNumberNat (s : String) : Nat :=
  if s.data ≠ [] ∧ s.data.all Char.isDigit then
    s.data.foldl (fun a c => a * 10 + (c.toNat - Char.toNat (Char.ofNat 48))) 0
  else 0

/-- Outcome of the `getUpdates` fetch of `main`: `httpOk` is `res.ok`,
`ok` is `data.ok`, `result` the update batch. -/
structure FetchResult where
  httpOk : Bool
  ok : Bool
  result : List TelegramUpdate
deriving DecidableEq, Repr

/-- `main` of `src/bot.ts` after the `getUpdates` fetch result is known:
credential guard, offset load from `store0` (the store as read at the start
of the cycle), the early returns on a failed fetch / `!data.ok` / an empty
batch, the update loop, and on normal completion the re-read-modify-write
of the store (`store1` is the store content as re-read by the second
`loadState()` immediately before the write). Returns the written store
(`none` when no write happens — an early return or an uncaught throw, the
latter landing in `main().catch(console.error)`) and the trace of outgoing
calls. -/
def pollMain (env : PollerEnv) (store0 store1 : List (String × String))
    (fr : FetchResult) : Option (List (String × String)) × List Eff :=
  if env.token = "" ∨ env.chatId = "" then (none, [])
  else
    if fr.httpOk = false then (none, [])
    else if fr.ok = false ∨ fr.result = [] then (none, [])
    else
      match pollLoopP env fr.result
          (jsNumberNat ((lookupKey store0 BOT_UPDATE_KEY).getD "0")) St.init with
      | Except.ok (n, st) =>
        (some (setKey store1 BOT_UPDATE_KEY (toString n)), st.trace)
      | Except.error st => (none, st.trace)

/-! ## Webhook mode (the webhook server file) -/

/-- One entry of the webhook file's `MONITOR_WORKFLOWS`: workflow file name
and human-readable label. -/
structure Workflow where
  file : String
  label : String
deriving DecidableEq, Repr

/-- `MONITOR_WORKFLOWS` of the webhook file. -/
def WEB_MONITOR_WORKFLOWS : List Workflow :=
  [⟨"monitor-instocktrades.yml", "InStockTrades"⟩,
   ⟨"monitor-ebay.yml", "eBay"⟩]

/-- Environment of the webhook server: Telegram and GitHub credentials read
from the process environment, per-call outcomes and query answers.
`sendOk n` tells whether the n-th `sendTelegramMessage` fetch resolves with
`res.ok` (in this mode a non-ok status also throws); `dispatchOk n` is as
in the poller; `latestRun wf` is the outcome of `getLatestWorkflowRun` for
workflow `wf` (`none` = the lookup throws; `some r` = it returns run record
`r`, itself `none` when the API reports no runs); `dateRender` models the
host's `new Date(s).toUTCString()` formatting, an external facility. -/
structure WebEnv where
  token : String
  chatId : String
  ghToken : String
  ghRepo : String
  sendOk : Nat → Bool
  dispatchOk : Nat → Bool
  latestRun : String → Option (Option WorkflowRun)
  dateRender : String → String

/-- `sendTelegramMessage` of the webhook file: throws without any HTTP call
when the Telegram credentials are missing; otherwise performs the fetch
(recorded) and throws iff it rejects or returns a non-ok status. -/
def sendTelegramMessage (env : WebEnv) (text : String) (st : St) :
    Except St St :=
  if env.token = "" ∨ env.chatId = "" then Except.error st
  else
    let st' : St := { st with sendCount := st.sendCount + 1,
                              trace := st.trace ++ [Eff.send text] }
    if env.sendOk st.sendCount then Except.ok st' else Except.error st'

/-- `dispatchWorkflow` of the webhook file: `githubContext()` throws without
any HTTP call when the GitHub credentials are missing; otherwise the
dispatch call is performed and throws iff it fails. -/
def dispatchWorkflowW (env : WebEnv) (wf : String) (st : St) : Except St St :=
  if env.ghToken = "" ∨ env.ghRepo = "" then Except.error st
  else
    let st' : St := { st with dispCount := st.dispCount + 1,
                              trace := st.trace ++ [Eff.dispatch wf] }
    if env.dispatchOk st.dispCount then Except.ok st' else Except.error st'

/-- The sequential dispatch loop of the webhook `/trigger` branch. -/
def triggerLoopW (env : WebEnv) : List String → St → Except St St
  | [], st => Except.ok st
  | wf :: rest, st =>
    match dispatchWorkflowW env wf st with
    | Except.ok st' => triggerLoopW env rest st'
    | Except.error st' => Except.error st'

/-- The `/trigger` branch of the webhook `handleMessage`, generalized over
the job list: same shape as the poller's — starting notification
(uncaught), `try` loop + success notification, `catch` with the single
failure notification. -/
def handleTriggerListW (env : WebEnv) (jobs : List String) (st : St) :
    Except St St :=
  match sendTelegramMessage env "⚡ Triggering monitor workflows..." st with
  | Except.error s => Except.error s
  | Except.ok s =>
    match (match triggerLoopW env jobs s with
           | Except.ok s2 =>
             sendTelegramMessage env "✅ Monitor workflows dispatched." s2
           | Except.error s2 => Except.error s2) with
    | Except.ok s3 => Except.ok s3
    | Except.error s3 =>
      sendTelegramMessage env "❌ Failed to trigger monitor workflows." s3

/-- The `/trigger` branch over the configured workflows. -/
def handleTriggerW (env : WebEnv) (st : St) : Except St St :=
  handleTriggerListW env (WEB_MONITOR_WORKFLOWS.map Workflow.file) st

/-- `formatRunStatus` of the webhook file. -/
def formatRunStatus (env : WebEnv) : Option WorkflowRun → String
  | none => "no runs yet"
  | some run =>
    (run.conclusion.getD run.status) ++ " (" ++ run.event ++ ", " ++
      env.dateRender run.created_at ++ ")"

/-- The `Promise.all(MONITOR_WORKFLOWS.map(...))` status fan-out: when the
GitHub credentials are missing every mapped call throws before any HTTP
request; otherwise all per-workflow queries are launched (all recorded in
the trace), and the join yields the label/run pairs in the declared list
order iff every query succeeded, rejecting otherwise. -/
def statusFanOut (env : WebEnv) (ws : List Workflow) (st : St) :
    Except Unit (List (String × Option WorkflowRun)) × St :=
  if env.ghToken = "" ∨ env.ghRepo = "" then (Except.error (), st)
  else
    let st' : St := { st with trace := st.trace ++ ws.map (fun w => Eff.query w.file) }
    if ws.all (fun w => (env.latestRun w.file).isSome) then
      (Except.ok (ws.map (fun w => (w.label, (env.latestRun w.file).getD none))), st')
    else (Except.error (), st')

/-- The `/status` branch of the webhook `handleMessage`: fan-out the status
queries, on success format one line per job in declared order and send the
joined report; any throw inside the `try` (a failed query, or the report
send itself) is caught and answered with the single failure notification
(whose own throw is not caught). -/
def handleStatusW (env : WebEnv) (st : St) : Except St St :=
  match statusFanOut env WEB_MONITOR_WORKFLOWS st with
  | (Except.error _, s) =>
    sendTelegramMessage env "❌ Failed to fetch workflow status." s
  | (Except.ok statuses, s) =>
    let lines := statuses.map
      (fun p => "• <b>" ++ p.1 ++ "</b>: " ++ formatRunStatus env p.2)
    match sendTelegramMessage env
        (String.intercalate "\n" ("📊 Monitor status" :: lines)) s with
    | Except.ok s2 => Except.ok s2
    | Except.error s2 =>
      sendTelegramMessage env "❌ Failed to fetch workflow status." s2

/-- `handleMessage` of the webhook file: drop when the update carries no
message or no operator chat id is configured, drop on a chat-id mismatch
(string comparison), then exact-match routing of the trimmed text over
`/test`, `/trigger`, `/status`; other text is ignored silently. -/
def handleMessage (env : WebEnv) (u : TelegramUpdate) (st : St) :
    Except St St :=
  match u.message with
  | none => Except.ok st
  | some msg =>
    if env.chatId = "" then Except.ok st
    else if toString msg.chatId = env.chatId then
      let text := (msg.text.map jsTrim).getD ""
      if text = "/test" then
        sendTelegramMessage env "✅ Bot is alive and running (webhook mode)." st
      else if text = "/trigger" then handleTriggerW env st
      else if text = "/status" then handleStatusW env st
      else Except.ok st
    else Except.ok st

/-- The trace of outgoing calls one webhook update produces, whether or not
`handleMessage` completes normally (a throw is caught by the server's
`catch` after the response has been sent). -/
def handleEvents (env : WebEnv) (u : TelegramUpdate) : List Eff :=
  match handleMessage env u St.init with
  | Except.ok s => s.trace
  | Except.error s => s.trace

/-! ### The HTTP server -/

/-- Result of `readJsonBody`: the body stream was empty (`null` payload,
on which `handleMessage` throws a `TypeError` when reading `.message`),
well-formed JSON decoding to an update, or malformed JSON (`JSON.parse`
throws). -/
inductive Body
  | nullBody
  | parsed (u : TelegramUpdate)
  | malformed
deriving DecidableEq, Repr

/-- One inbound HTTP request: method, url, the
`x-telegram-bot-api-secret-token` header when present, and the body. -/
structure HttpReq where
  method : String
  url : String
  secretHeader : Option String
  body : Body
deriving DecidableEq, Repr

/-- Server-level configuration from the process environment:
`TELEGRAM_WEBHOOK_PATH` (defaulted) and `TELEGRAM_WEBHOOK_SECRET`. -/
structure WebCfg where
  webhookPath : String
  webhookSecret : String
deriving DecidableEq, Repr

/-- An observable server action: an HTTP response written with `writeJson`,
or an outgoing call made by the dispatch logic. -/
inductive SrvEvent
  | respond (status : Nat)
  | eff (e : Eff)
deriving DecidableEq, Repr

/-- The `createServer` request callback, as the ordered list of observable
actions it performs: health-check GETs answer 200; other method/path
combinations answer 404; when a webhook secret is configured a mismatching
or absent secret header answers 401; a malformed body makes `readJsonBody`
throw before any response, answered 500 by the `catch`; otherwise 200 is
written first and only then is `handleMessage` awaited (a throw inside it
is caught with the headers already sent, so no further response follows). -/
def serverHandle (cfg : WebCfg) (env : WebEnv) (req : HttpReq) :
    List SrvEvent :=
  if req.method = "GET" ∧ (req.url = "/" ∨ req.url = "/healthz") then
    [SrvEvent.respond 200]
  else if req.method ≠ "POST" ∨ req.url ≠ cfg.webhookPath then
    [SrvEvent.respond 404]
  else if cfg.webhookSecret ≠ "" ∧ req.secretHeader ≠ some cfg.webhookSecret then
    [SrvEvent.respond 401]
  else
    match req.body with
    | Body.malformed => [SrvEvent.respond 500]
    | Body.nullBody => [SrvEvent.respond 200]
    | Body.parsed u =>
      SrvEvent.respond 200 :: (handleEvents env u).map SrvEvent.eff


/-- Whether a server event is an HTTP response write. -/
def SrvEvent.isRespond : SrvEvent → Bool
  | SrvEvent.respond _ => true
  | SrvEvent.eff _ => false

/-! ### Concrete inputs used by the claim witnesses and counterexamples -/

/-- Poller environment whose external calls all succeed. -/
def c1env : PollerEnv := ⟨"t", "42", fun _ => true, fun _ => true⟩

/-- A fetched batch holding one authorized `/status` update. -/
def c1fetch : FetchResult := ⟨true, true, [⟨1, some ⟨42, some "/status"⟩⟩]⟩

/-- Webhook environment whose external calls all succeed. -/
def c1wenv : WebEnv :=
  ⟨"t", "42", "g", "r", fun _ => true, fun _ => true, fun _ => some none,
   fun s => s⟩

/-- An authorized `/status` update. -/
def c1update : TelegramUpdate := ⟨1, some ⟨42, some "/status"⟩⟩

/-- Poller environment where every notification send fails at the network
level while every workflow dispatch would succeed. -/
def c2env : PollerEnv := ⟨"t", "42", fun _ => false, fun _ => true⟩

/-- A fetched batch holding one authorized `/test` update, id 1. -/
def c2fetch : FetchResult := ⟨true, true, [⟨1, some ⟨42, some "/test"⟩⟩]⟩

/-- Poller environment where sends resolve but every dispatch fails. -/
def c2wenv : PollerEnv := ⟨"t", "42", fun _ => true, fun _ => false⟩

/-- A store holding offset 2. -/
def c2wstore : List (String × String) := [("__bot_last_update_id__", "2")]

/-- A fetched batch holding one authorized `/trigger` update, id 9. -/
def c2wfetch : FetchResult := ⟨true, true, [⟨9, some ⟨42, some "/trigger"⟩⟩]⟩

/-- Poller environment where every notification send fails. -/
def c3env : PollerEnv := ⟨"t", "42", fun _ => false, fun _ => true⟩

/-- A fetched batch holding one authorized `/trigger` update, id 5. -/
def c3fetch : FetchResult := ⟨true, true, [⟨5, some ⟨42, some "/trigger"⟩⟩]⟩

/-- Poller environment whose external calls all succeed. -/
def c3wenv : PollerEnv := ⟨"t", "42", fun _ => true, fun _ => true⟩

/-- A batch with an unauthorized update of id 10 and an authorized `/test`
update of id 8. -/
def c3wfetch : FetchResult :=
  ⟨true, true, [⟨10, some ⟨77, some "hello"⟩⟩, ⟨8, some ⟨42, some "/test"⟩⟩]⟩

/-- Environment for the C4 witness scenario from the spec. -/
def c4env : PollerEnv := ⟨"t", "42", fun _ => true, fun _ => true⟩

/-- Store for the C4 witness scenario from the spec. -/
def c4store : List (String × String) :=
  [("__bot_last_update_id__", "5"), ("other_key", "x")]

/-- Batch for the C4 witness scenario: update ids 6 and 7, id 7 an
authorized `/status`. -/
def c4fetch : FetchResult :=
  ⟨true, true, [⟨6, none⟩, ⟨7, some ⟨42, some "/status"⟩⟩]⟩

/-- Poller environment for the C5 witness. -/
def c5penv : PollerEnv := ⟨"t", "42", fun _ => true, fun _ => true⟩

/-- Webhook environment for the C5 witness. -/
def c5wenv : WebEnv :=
  ⟨"t", "42", "g", "r", fun _ => true, fun _ => true, fun _ => some none,
   fun s => s⟩

/-- An update from chat 7 while the configured operator chat is 42. -/
def c5update : TelegramUpdate := ⟨9, some ⟨7, some "/trigger"⟩⟩

/-- Poller environment whose second workflow dispatch fails. -/
def c6pFail : PollerEnv := ⟨"t", "42", fun _ => true, fun n => n == 0⟩

/-- Poller environment whose dispatches all succeed. -/
def c6pOk : PollerEnv := ⟨"t", "42", fun _ => true, fun _ => true⟩

/-- Webhook environment whose second workflow dispatch fails. -/
def c6wFail : WebEnv :=
  ⟨"t", "42", "g", "r", fun _ => true, fun n => n == 0, fun _ => some none,
   fun s => s⟩

/-- Webhook environment whose dispatches all succeed. -/
def c6wOk : WebEnv :=
  ⟨"t", "42", "g", "r", fun _ => true, fun _ => true, fun _ => some none,
   fun s => s⟩

/-- A completed successful run record. -/
def c7run : WorkflowRun :=
  ⟨"push", "completed", some "success", "2025-01-01T00:00:00Z"⟩

/-- Webhook environment where the first configured workflow has no runs and
the second has `c7run`. -/
def c7env : WebEnv :=
  ⟨"t", "42", "g", "r", fun _ => true, fun _ => true,
   fun wf => if wf = "monitor-instocktrades.yml" then some none
             else some (some c7run),
   fun s => s⟩

/-- Server configuration with a configured secret. -/
def c8cfg : WebCfg := ⟨"/telegram/webhook", "s3cr3t"⟩

/-- Webhook environment whose external calls all succeed. -/
def c8env : WebEnv :=
  ⟨"t", "42", "g", "r", fun _ => true, fun _ => true, fun _ => some none,
   fun s => s⟩

/-- An authorized `/test` update. -/
def c8u : TelegramUpdate := ⟨1, some ⟨42, some "/test"⟩⟩

/-- A POST to the webhook path carrying the right secret and `c8u`. -/
def c8req : HttpReq :=
  ⟨"POST", "/telegram/webhook", some "s3cr3t", Body.parsed c8u⟩

/-- Poller environment where every notification send fails. -/
def c9env : PollerEnv := ⟨"t", "42", fun _ => false, fun _ => true⟩

/-- A batch with two authorized `/test` updates, ids 1 and 2. -/
def c9fetch : FetchResult :=
  ⟨true, true, [⟨1, some ⟨42, some "/test"⟩⟩, ⟨2, some ⟨42, some "/test"⟩⟩]⟩

/-- A batch with a single authorized `/test` update, id 1. -/
def c9wfetch : FetchResult := ⟨true, true, [⟨1, some ⟨42, some "/test"⟩⟩]⟩

/-- Server configuration with no secret configured. -/
def c9wcfg : WebCfg := ⟨"/telegram/webhook", ""⟩

/-- Webhook environment where every notification send fails. -/
def c9wweb : WebEnv :=
  ⟨"t", "42", "g", "r", fun _ => false, fun _ => true, fun _ => some none,
   fun s => s⟩

/-- An authorized `/test` update. -/
def c9wu : TelegramUpdate := ⟨1, some ⟨42, some "/test"⟩⟩

/-- A POST to the webhook path carrying `c9wu`. -/
def c9wreq : HttpReq := ⟨"POST", "/telegram/webhook", none, Body.parsed c9wu⟩

/-- Server configuration with no secret configured. -/
def c10cfg : WebCfg := ⟨"/hook", ""⟩

/-- Webhook environment whose external calls all succeed. -/
def c10env : WebEnv :=
  ⟨"t", "42", "g", "r", fun _ => true, fun _ => true, fun _ => some none,
   fun s => s⟩

/-- An authorized `/test` update. -/
def c10u : TelegramUpdate := ⟨2, some ⟨42, some "/test"⟩⟩

/-- A POST to the webhook path carrying a bogus secret header while no
secret is configured. -/
def c10req : HttpReq := ⟨"POST", "/hook", some "totally-wrong", Body.parsed c10u⟩

/-! ## Helper lemmas -/

theorem lookupKey_map_set_ne (m : List (String × String)) (k v k' : String)
    (h : k' ≠ k) :
    lookupKey (m.map (fun p => if p.1 = k then (k, v) else p)) k' =
      lookupKey m k' := by
  induction m with
  | nil => rfl
  | cons p rest ih =>
    simp only [List.map_cons]
    by_cases hp : p.1 = k
    · rw [if_pos hp]
      simp only [lookupKey]
      rw [if_neg (fun e : k = k' => h e.symm),
        if_neg (fun e : p.1 = k' => h ((hp ▸ e : k = k')).symm)]
      exact ih
    · rw [if_neg hp]
      simp only [lookupKey]
      by_cases hp' : p.1 = k'
      · rw [if_pos hp', if_pos hp']
      · rw [if_neg hp', if_neg hp']
        exact ih

theorem lookupKey_append_single_ne (m : List (String × String)) (k v k' : String)
    (h : k' ≠ k) :
    lookupKey (m ++ [(k, v)]) k' = lookupKey m k' := by
  induction m with
  | nil =>
    have hk' : ¬k = k' := fun e => h e.symm
    simp [lookupKey, hk']
  | cons p rest ih =>
    simp only [List.cons_append, lookupKey]
    by_cases hp' : p.1 = k'
    · rw [if_pos hp', if_pos hp']
    · rw [if_neg hp', if_neg hp']
      exact ih

/-- Writing the offset key leaves every other key's value unchanged. -/
theorem lookupKey_setKey_ne (m : List (String × String)) (k v k' : String)
    (h : k' ≠ k) : lookupKey (setKey m k v) k' = lookupKey m k' := by
  unfold setKey
  split
  · exact lookupKey_map_set_ne m k v k' h
  · exact lookupKey_append_single_ne m k v k' h

theorem lookupKey_map_set_self (m : List (String × String)) (k v : String)
    (hany : (m.any fun p => p.1 = k) = true) :
    lookupKey (m.map (fun p => if p.1 = k then (k, v) else p)) k = some v := by
  induction m with
  | nil => simp at hany
  | cons p rest ih =>
    simp only [List.map_cons]
    by_cases hp : p.1 = k
    · rw [if_pos hp]
      simp [lookupKey]
    · rw [if_neg hp]
      simp only [lookupKey]
      rw [if_neg hp]
      apply ih
      simp only [List.any_cons, Bool.or_eq_true] at hany
      rcases hany with h1 | h2
      · exact absurd (of_decide_eq_true h1) hp
      · exact h2

theorem lookupKey_append_single_self (m : List (String × String)) (k v : String)
    (hany : (m.any fun p => p.1 = k) = false) :
    lookupKey (m ++ [(k, v)]) k = some v := by
  induction m with
  | nil => simp [lookupKey]
  | cons p rest ih =>
    simp only [List.any_cons, Bool.or_eq_false_iff] at hany
    simp only [List.cons_append, lookupKey]
    rw [if_neg (by simpa using hany.1)]
    exact ih hany.2

/-- After the write, the offset key holds the written value. -/
theorem lookupKey_setKey_self (m : List (String × String)) (k v : String) :
    lookupKey (setKey m k v) k = some v := by
  unfold setKey
  split
  · rename_i hany
    exact lookupKey_map_set_self m k v hany
  · rename_i hany
    refine lookupKey_append_single_self m k v ?_
    rw [Bool.eq_false_iff]
    exact hany

/-- Every notification send in a poller cycle resolves at the network level
(the environment rejects none of the `sendMessage` fetches). -/
def goodSendsP (env : PollerEnv) : Prop := ∀ n, env.sendOk n = true

theorem sendMessageP_goodSends (env : PollerEnv) (h : goodSendsP env)
    (text : String) (st : St) :
    sendMessageP env text st =
      Except.ok ⟨st.sendCount + 1, st.dispCount, st.trace ++ [Eff.send text]⟩ := by
  unfold sendMessageP
  rw [if_pos (h st.sendCount)]

theorem handleTriggerListP_goodSends (env : PollerEnv) (h : goodSendsP env)
    (jobs : List String) (st : St) :
    ∃ s, handleTriggerListP env jobs st = Except.ok s := by
  cases htl : triggerLoopP env jobs
      ⟨st.sendCount + 1, st.dispCount,
       st.trace ++ [Eff.send "⚡ Triggering monitor workflows..."]⟩ with
  | ok s2 =>
    refine ⟨⟨s2.sendCount + 1, s2.dispCount,
      s2.trace ++ [Eff.send "✅ Monitor workflows dispatched."]⟩, ?_⟩
    simp [handleTriggerListP, sendMessageP_goodSends env h, htl]
  | error s2 =>
    refine ⟨⟨s2.sendCount + 1, s2.dispCount,
      s2.trace ++ [Eff.send "❌ Failed to trigger monitor workflows."]⟩, ?_⟩
    simp [handleTriggerListP, sendMessageP_goodSends env h, htl]

theorem procUpdateP_goodSends (env : PollerEnv) (h : goodSendsP env)
    (u : TelegramUpdate) (n : Nat) (st : St) :
    ∃ s, procUpdateP env u n st = Except.ok (max n u.update_id, s) := by
  cases hm : u.message with
  | none => exact ⟨st, by simp [procUpdateP, hm]⟩
  | some msg =>
    by_cases hc : toString msg.chatId = env.chatId
    · by_cases h1 : ((msg.text.map jsTrim).getD "") = "/test"
      · refine ⟨⟨st.sendCount + 1, st.dispCount,
          st.trace ++ [Eff.send "✅ Bot is alive and running."]⟩, ?_⟩
        simp [procUpdateP, hm, hc, h1, sendMessageP_goodSends env h, Except.map]
      · by_cases h2 : ((msg.text.map jsTrim).getD "") = "/trigger"
        · obtain ⟨s, hs⟩ :=
            handleTriggerListP_goodSends env h MONITOR_WORKFLOWS st
          exact ⟨s, by simp [procUpdateP, hm, hc, h1, h2, handleTriggerP, hs,
            Except.map]⟩
        · exact ⟨st, by simp [procUpdateP, hm, hc, h1, h2]⟩
    · exact ⟨st, by simp [procUpdateP, hm, hc]⟩

theorem pollLoopP_goodSends (env : PollerEnv) (h : goodSendsP env) :
    ∀ (us : List TelegramUpdate) (n : Nat) (st : St),
    ∃ s, pollLoopP env us n st =
      Except.ok (us.foldl (fun a u => max a u.update_id) n, s) := by
  intro us
  induction us with
  | nil => exact fun n st => ⟨st, rfl⟩
  | cons u rest ih =>
    intro n st
    obtain ⟨s1, h1⟩ := procUpdateP_goodSends env h u n st
    obtain ⟨s2, h2⟩ := ih (max n u.update_id) s1
    exact ⟨s2, by simp [pollLoopP, h1, h2]⟩

/-- The highest update id in a batch (`0` for the empty batch). -/
def batchMax (us : List TelegramUpdate) : Nat :=
  us.foldl (fun a u => max a u.update_id) 0

theorem foldl_max_eq_max_batchMax (us : List TelegramUpdate) :
    ∀ n : Nat, us.foldl (fun a u => max a u.update_id) n = max n (batchMax us) := by
  induction us with
  | nil => intro n; simp [batchMax]
  | cons u rest ih =>
    intro n
    have h1 := ih (max n u.update_id)
    have h2 := ih (max 0 u.update_id)
    simp only [List.foldl_cons, batchMax] at *
    omega

/-- Any store the poller writes is the re-read store with only the offset
key replaced. -/
theorem pollMain_write_shape (env : PollerEnv)
    (store0 store1 : List (String × String)) (fr : FetchResult) :
    (pollMain env store0 store1 fr).1 = none ∨
    ∃ v, (pollMain env store0 store1 fr).1 =
      some (setKey store1 BOT_UPDATE_KEY v) := by
  unfold pollMain
  split
  · exact Or.inl rfl
  · split
    · exact Or.inl rfl
    · split
      · exact Or.inl rfl
      · split
        · exact Or.inr ⟨_, rfl⟩
        · exact Or.inl rfl

/-! ## Claims -/

/-- C4: when the poller persists the new offset, every key of the state
store other than the reserved offset key `__bot_last_update_id__` keeps the
value it has in the store as re-read immediately before the write
(`store1`), because the written store is that re-read store with only the
offset key replaced. -/
theorem c4_frame_preserved (env : PollerEnv)
    (store0 store1 : List (String × String)) (fr : FetchResult)
    (m : List (String × String)) (tr : List Eff)
    (hw : pollMain env store0 store1 fr = (some m, tr))
    (k : String) (hk : k ≠ BOT_UPDATE_KEY) :
    lookupKey m k = lookupKey store1 k := by
  have h1 : (pollMain env store0 store1 fr).1 = some m := by rw [hw]
  rcases pollMain_write_shape env store0 store1 fr with h | ⟨v, h⟩
  · rw [h1] at h
    cases h
  · rw [h1] at h
    injection h with h
    rw [h]
    exact lookupKey_setKey_ne store1 BOT_UPDATE_KEY v k hk

/-- Witness for C4 on the spec scenario: the final store is
`{"__bot_last_update_id__": "7", "other_key": "x"}`, and `other_key` is
untouched. -/
theorem c4_witness :
    pollMain c4env c4store c4store c4fetch =
      (some [("__bot_last_update_id__", "7"), ("other_key", "x")], []) ∧
    lookupKey [("__bot_last_update_id__", "7"), ("other_key", "x")] "other_key" =
      lookupKey c4store "other_key" :=
  ⟨by rfl,
   c4_frame_preserved c4env c4store c4store c4fetch
     [("__bot_last_update_id__", "7"), ("other_key", "x")] []
     (by rfl) "other_key" (by decide)⟩

/-- C5: an update whose message chat id, rendered as a string, differs from
the configured operator chat id — and likewise an update without a message —
is dropped by both modes without any notification send or gateway call: the
poller's loop body only raises the running offset and leaves the effect
state untouched, and the webhook's `handleMessage` returns with the effect
state untouched. -/
theorem c5_unauthorized_silent (penv : PollerEnv) (wenv : WebEnv)
    (u : TelegramUpdate) (n : Nat) (st st' : St)
    (hdropp : ∀ msg, u.message = some msg → toString msg.chatId ≠ penv.chatId)
    (hdropw : ∀ msg, u.message = some msg → toString msg.chatId ≠ wenv.chatId) :
    procUpdateP penv u n st = Except.ok (max n u.update_id, st) ∧
    handleMessage wenv u st' = Except.ok st' := by
  cases hm : u.message with
  | none => exact ⟨by simp [procUpdateP, hm], by simp [handleMessage, hm]⟩
  | some msg =>
    have h1 := hdropp msg hm
    have h2 := hdropw msg hm
    constructor
    · simp [procUpdateP, hm, h1]
    · by_cases hz : wenv.chatId = ""
      · simp [handleMessage, hm, hz]
      · simp [handleMessage, hm, hz, h2]

/-- Witness for C5: the unauthorized `/trigger` update is dropped silently
by both modes. -/
theorem c5_witness :
    procUpdateP c5penv c5update 3 St.init = Except.ok (max 3 9, St.init) ∧
    handleMessage c5wenv c5update St.init = Except.ok St.init :=
  c5_unauthorized_silent c5penv c5wenv c5update 3 St.init St.init
    (fun msg hmsg => by
      injection hmsg with h
      rw [← h]
      decide)
    (fun msg hmsg => by
      injection hmsg with h
      rw [← h]
      decide)

/-- Shared positive half of the offset claims: with all notification sends
resolving (dispatch outcomes arbitrary), a non-empty batch always ends in
the state write, and the written offset is `max p (batchMax B)`. -/
theorem pollMain_goodSends_writes (env : PollerEnv)
    (store0 store1 : List (String × String)) (fr : FetchResult) (p : Nat)
    (hcred : ¬(env.token = "" ∨ env.chatId = ""))
    (hs : goodSendsP env)
    (hp : jsNumberNat ((lookupKey store0 BOT_UPDATE_KEY).getD "0") = p)
    (hok : fr.httpOk = true) (hdok : fr.ok = true) (hne : fr.result ≠ []) :
    ∃ m tr, pollMain env store0 store1 fr = (some m, tr) ∧
      lookupKey m BOT_UPDATE_KEY =
        some (toString (max p (batchMax fr.result))) := by
  obtain ⟨s, hloop⟩ := pollLoopP_goodSends env hs fr.result
    (jsNumberNat ((lookupKey store0 BOT_UPDATE_KEY).getD "0")) St.init
  rw [hp, foldl_max_eq_max_batchMax] at hloop
  refine ⟨setKey store1 BOT_UPDATE_KEY (toString (max p (batchMax fr.result))),
    s.trace, ?_, ?_⟩
  · unfold pollMain
    rw [if_neg hcred, if_neg (by simp [hok]), if_neg (by simp [hdok, hne]),
      hp, hloop]
  · exact lookupKey_setKey_self store1 BOT_UPDATE_KEY _

/-- C1 counterexample: in poller mode an admitted update whose trimmed text
is exactly `/status` produces no outgoing call at all — the trace of the
cycle is empty, so no status fan-out happens and no status report
notification is sent, contrary to the claim that the poller handles
`/status` just as the webhook does. (The offset is still advanced.) -/
theorem c1_counterexample :
    pollMain c1env [] [] c1fetch =
      (some [("__bot_last_update_id__", "1")], []) := by rfl

/-- C1 amended: the two modes share `/test` and `/trigger`, but `/status`
is implemented only in webhook mode: the poller silently ignores an
admitted `/status` message (no gateway call, no notification; only the
offset bookkeeping runs), while the webhook's `handleMessage` dispatches it
to the status fan-out handler. -/
theorem c1_status_only_webhook (penv : PollerEnv) (wenv : WebEnv)
    (u : TelegramUpdate) (msg : Message) (n : Nat) (st st' : St)
    (hm : u.message = some msg)
    (hp : toString msg.chatId = penv.chatId)
    (hw : toString msg.chatId = wenv.chatId)
    (hz : wenv.chatId ≠ "")
    (ht : (msg.text.map jsTrim).getD "" = "/status") :
    procUpdateP penv u n st = Except.ok (max n u.update_id, st) ∧
    handleMessage wenv u st' = handleStatusW wenv st' := by
  have h1 : ("/status" : String) ≠ "/test" := by decide
  have h2 : ("/status" : String) ≠ "/trigger" := by decide
  constructor
  · simp [procUpdateP, hm, hp, ht, h1, h2]
  · simp [handleMessage, hm, hw, hz, ht, h1, h2]

/-- Witness for C1's amended statement: a concrete authorized `/status`
update is ignored by the poller loop body and routed to the status handler
by the webhook dispatcher. -/
theorem c1_witness :
    procUpdateP c1env c1update 0 St.init = Except.ok (max 0 1, St.init) ∧
    handleMessage c1wenv c1update St.init = handleStatusW c1wenv St.init :=
  c1_status_only_webhook c1env c1wenv c1update ⟨42, some "/status"⟩ 0
    St.init St.init rfl rfl rfl (by decide) rfl

/-- C2 counterexample: a batch holding one authorized `/test` update whose
liveness notification send fails at the network level ends with no state
write at all (`none`): the offset `0` is not replaced by `1`, so the same
update is re-fetched on the next cycle — the claim that a handler failure
cannot prevent persisting the new highest update id fails for notification
sends. -/
theorem c2_counterexample :
    pollMain c2env [("__bot_last_update_id__", "0")]
      [("__bot_last_update_id__", "0")] c2fetch =
      (none, [Eff.send "✅ Bot is alive and running."]) := by rfl

/-- C2 amended: the offset is persisted after the batch whenever no
notification send fails at the network level; in particular workflow
trigger failures never prevent the write, because the `/trigger` handler
catches them — but an uncaught notification-send rejection aborts the cycle
before the write. -/
theorem c2_offset_persisted_when_sends_resolve (env : PollerEnv)
    (store0 store1 : List (String × String)) (fr : FetchResult) (p : Nat)
    (hcred : ¬(env.token = "" ∨ env.chatId = ""))
    (hs : goodSendsP env)
    (hp : jsNumberNat ((lookupKey store0 BOT_UPDATE_KEY).getD "0") = p)
    (hok : fr.httpOk = true) (hdok : fr.ok = true) (hne : fr.result ≠ []) :
    ∃ m tr, pollMain env store0 store1 fr = (some m, tr) ∧
      lookupKey m BOT_UPDATE_KEY =
        some (toString (max p (batchMax fr.result))) :=
  pollMain_goodSends_writes env store0 store1 fr p hcred hs hp hok hdok hne

/-- Witness for C2's amended statement: with every dispatch failing, an
authorized `/trigger` update of id 9 over stored offset 2 still ends in a
write of offset 9. -/
theorem c2_witness :
    ∃ m tr, pollMain c2wenv c2wstore c2wstore c2wfetch = (some m, tr) ∧
      lookupKey m BOT_UPDATE_KEY =
        some (toString (max 2 (batchMax c2wfetch.result))) :=
  c2_offset_persisted_when_sends_resolve c2wenv c2wstore c2wstore c2wfetch 2
    (by decide) (fun _ => rfl) (by rfl) rfl rfl (by decide)

/-- C3 counterexample: previously persisted offset 3, batch `[5]` (an
authorized `/trigger` whose starting notification send fails): the cycle
performs no write, so the persisted offset stays 3 instead of
`max(3, 5) = 5`. -/
theorem c3_counterexample :
    pollMain c3env [("__bot_last_update_id__", "3")]
      [("__bot_last_update_id__", "3")] c3fetch =
      (none, [Eff.send "⚡ Triggering monitor workflows..."]) := by rfl

/-- C3 amended: provided the cycle completes without an uncaught handler
throw (all notification sends resolve; dispatch outcomes arbitrary), the
persisted offset after the cycle is `max(p, max(update_id over B))` for a
non-empty batch — counting every update, authorized or not, message-less or
not — and no write occurs for an empty batch, leaving the persisted offset
at `p`. -/
theorem c3_offset_max_formula (env : PollerEnv)
    (store0 store1 : List (String × String)) (fr : FetchResult) (p : Nat)
    (hcred : ¬(env.token = "" ∨ env.chatId = ""))
    (hs : goodSendsP env)
    (hp : jsNumberNat ((lookupKey store0 BOT_UPDATE_KEY).getD "0") = p)
    (hok : fr.httpOk = true) (hdok : fr.ok = true) :
    (fr.result = [] → pollMain env store0 store1 fr = (none, [])) ∧
    (fr.result ≠ [] → ∃ m tr,
      pollMain env store0 store1 fr = (some m, tr) ∧
      lookupKey m BOT_UPDATE_KEY =
        some (toString (max p (batchMax fr.result)))) := by
  constructor
  · intro hempty
    unfold pollMain
    rw [if_neg hcred, if_neg (by simp [hok]), if_pos (by simp [hempty])]
  · intro hne
    exact pollMain_goodSends_writes env store0 store1 fr p hcred hs hp hok
      hdok hne

/-- Witness for C3's amended statement: ids `[10, 8]` (id 10 unauthorized,
id 8 an authorized `/test`) over offset 0 end with offset `max 0 10`; an
empty batch ends with no write. -/
theorem c3_witness :
    (∃ m tr, pollMain c3wenv [] [] c3wfetch = (some m, tr) ∧
      lookupKey m BOT_UPDATE_KEY =
        some (toString (max 0 (batchMax c3wfetch.result)))) ∧
    pollMain c3wenv [] [] ⟨true, true, []⟩ = (none, []) :=
  ⟨(c3_offset_max_formula c3wenv [] [] c3wfetch 0 (by decide) (fun _ => rfl)
      rfl rfl rfl).2 (by decide),
   (c3_offset_max_formula c3wenv [] [] ⟨true, true, []⟩ 0 (by decide)
      (fun _ => rfl) rfl rfl rfl).1 rfl⟩

/-- C6: the `/trigger` fan-out is sequential in list order and fail-fast in
both modes. Over a job list `[a, b, c]`: in an environment whose second
dispatch fails, job `a` is dispatched, job `b` is attempted, job `c` is
never attempted, and exactly one failure notification (and no success
notification) follows; in an environment whose dispatches all succeed,
exactly one success notification follows the three dispatches. -/
theorem c6_trigger_fanout (a b c : String)
    (pF pS : PollerEnv) (wF wS : WebEnv)
    (hpF0 : pF.sendOk 0 = true) (hpF1 : pF.sendOk 1 = true)
    (hpFd0 : pF.dispatchOk 0 = true) (hpFd1 : pF.dispatchOk 1 = false)
    (hpS0 : pS.sendOk 0 = true) (hpS1 : pS.sendOk 1 = true)
    (hpSd : ∀ n, pS.dispatchOk n = true)
    (hwFcred : ¬(wF.token = "" ∨ wF.chatId = ""))
    (hwFgh : ¬(wF.ghToken = "" ∨ wF.ghRepo = ""))
    (hwF0 : wF.sendOk 0 = true) (hwF1 : wF.sendOk 1 = true)
    (hwFd0 : wF.dispatchOk 0 = true) (hwFd1 : wF.dispatchOk 1 = false)
    (hwScred : ¬(wS.token = "" ∨ wS.chatId = ""))
    (hwSgh : ¬(wS.ghToken = "" ∨ wS.ghRepo = ""))
    (hwS0 : wS.sendOk 0 = true) (hwS1 : wS.sendOk 1 = true)
    (hwSd : ∀ n, wS.dispatchOk n = true) :
    handleTriggerListP pF [a, b, c] St.init = Except.ok
      ⟨2, 2, [Eff.send "⚡ Triggering monitor workflows...", Eff.dispatch a,
              Eff.dispatch b,
              Eff.send "❌ Failed to trigger monitor workflows."]⟩ ∧
    handleTriggerListP pS [a, b, c] St.init = Except.ok
      ⟨2, 3, [Eff.send "⚡ Triggering monitor workflows...", Eff.dispatch a,
              Eff.dispatch b, Eff.dispatch c,
              Eff.send "✅ Monitor workflows dispatched."]⟩ ∧
    handleTriggerListW wF [a, b, c] St.init = Except.ok
      ⟨2, 2, [Eff.send "⚡ Triggering monitor workflows...", Eff.dispatch a,
              Eff.dispatch b,
              Eff.send "❌ Failed to trigger monitor workflows."]⟩ ∧
    handleTriggerListW wS [a, b, c] St.init = Except.ok
      ⟨2, 3, [Eff.send "⚡ Triggering monitor workflows...", Eff.dispatch a,
              Eff.dispatch b, Eff.dispatch c,
              Eff.send "✅ Monitor workflows dispatched."]⟩ := by
  refine ⟨?_, ?_, ?_, ?_⟩
  · simp [handleTriggerListP, sendMessageP, triggerLoopP, dispatchWorkflowP,
      St.init, hpF0, hpF1, hpFd0, hpFd1]
  · simp [handleTriggerListP, sendMessageP, triggerLoopP, dispatchWorkflowP,
      St.init, hpS0, hpS1, hpSd]
  · simp [handleTriggerListW, sendTelegramMessage, triggerLoopW,
      dispatchWorkflowW, St.init, hwFcred, hwFgh, hwF0, hwF1, hwFd0, hwFd1]
  · simp [handleTriggerListW, sendTelegramMessage, triggerLoopW,
      dispatchWorkflowW, St.init, hwScred, hwSgh, hwS0, hwS1, hwSd]

/-- Witness for C6 on jobs `["A", "B", "C"]` with concrete environments
whose second dispatch fails (`c6pFail`, `c6wFail`) or whose dispatches all
succeed (`c6pOk`, `c6wOk`). -/
theorem c6_witness :
    handleTriggerListP c6pFail ["A", "B", "C"] St.init = Except.ok
      ⟨2, 2, [Eff.send "⚡ Triggering monitor workflows...", Eff.dispatch "A",
              Eff.dispatch "B",
              Eff.send "❌ Failed to trigger monitor workflows."]⟩ ∧
    handleTriggerListP c6pOk ["A", "B", "C"] St.init = Except.ok
      ⟨2, 3, [Eff.send "⚡ Triggering monitor workflows...", Eff.dispatch "A",
              Eff.dispatch "B", Eff.dispatch "C",
              Eff.send "✅ Monitor workflows dispatched."]⟩ ∧
    handleTriggerListW c6wFail ["A", "B", "C"] St.init = Except.ok
      ⟨2, 2, [Eff.send "⚡ Triggering monitor workflows...", Eff.dispatch "A",
              Eff.dispatch "B",
              Eff.send "❌ Failed to trigger monitor workflows."]⟩ ∧
    handleTriggerListW c6wOk ["A", "B", "C"] St.init = Except.ok
      ⟨2, 3, [Eff.send "⚡ Triggering monitor workflows...", Eff.dispatch "A",
              Eff.dispatch "B", Eff.dispatch "C",
              Eff.send "✅ Monitor workflows dispatched."]⟩ :=
  c6_trigger_fanout "A" "B" "C" c6pFail c6pOk c6wFail c6wOk
    rfl rfl rfl rfl rfl rfl (fun _ => rfl)
    (by decide) (by decide) rfl rfl rfl rfl
    (by decide) (by decide) rfl rfl (fun _ => rfl)

/-- C7: on the configured jobs (InStockTrades then eBay), when the first
has no prior run and the second has run `run`, the `/status` handler sends
exactly one report whose lines are, in the declared job order, the
InStockTrades line rendered with the "no runs yet" sentinel and then the
eBay line; the per-job answers are joined by declared order (as
`Promise.all` does), independent of the order in which the two concurrent
queries complete. -/
theorem c7_status_report (env : WebEnv) (run : WorkflowRun)
    (hcred : ¬(env.token = "" ∨ env.chatId = ""))
    (hgh : ¬(env.ghToken = "" ∨ env.ghRepo = ""))
    (hs0 : env.sendOk 0 = true)
    (hA : env.latestRun "monitor-instocktrades.yml" = some none)
    (hB : env.latestRun "monitor-ebay.yml" = some (some run)) :
    handleStatusW env St.init = Except.ok
      ⟨1, 0, [Eff.query "monitor-instocktrades.yml",
              Eff.query "monitor-ebay.yml",
              Eff.send (String.intercalate "\n"
                ["📊 Monitor status",
                 "• <b>InStockTrades</b>: no runs yet",
                 "• <b>eBay</b>: " ++ formatRunStatus env (some run)])]⟩ := by
  have hline : "• <b>InStockTrades</b>: " ++ "no runs yet" =
      "• <b>InStockTrades</b>: no runs yet" := rfl
  simp [handleStatusW, statusFanOut, WEB_MONITOR_WORKFLOWS, hgh, hA, hB,
    sendTelegramMessage, hcred, hs0, St.init, formatRunStatus, hline]

/-- Witness for C7: concrete environment `c7env` (InStockTrades without
runs, eBay with `c7run`). -/
theorem c7_witness :
    handleStatusW c7env St.init = Except.ok
      ⟨1, 0, [Eff.query "monitor-instocktrades.yml",
              Eff.query "monitor-ebay.yml",
              Eff.send (String.intercalate "\n"
                ["📊 Monitor status",
                 "• <b>InStockTrades</b>: no runs yet",
                 "• <b>eBay</b>: " ++ formatRunStatus c7env (some c7run)])]⟩ :=
  c7_status_report c7env c7run (by decide) (by decide) rfl (by rfl) (by rfl)

/-- Shared admission lemma for the webhook server: a POST to the webhook
path that passes the secret check (no secret configured, or a matching
header) is answered 200 first, and only then do the dispatch logic's
effects happen. -/
theorem serverHandle_admitted (cfg : WebCfg) (env : WebEnv) (req : HttpReq)
    (u : TelegramUpdate)
    (hm : req.method = "POST") (hu : req.url = cfg.webhookPath)
    (hsec : cfg.webhookSecret = "" ∨ req.secretHeader = some cfg.webhookSecret)
    (hb : req.body = Body.parsed u) :
    serverHandle cfg env req =
      SrvEvent.respond 200 :: (handleEvents env u).map SrvEvent.eff := by
  unfold serverHandle
  rw [if_neg (fun h => absurd (hm ▸ h.1) (by decide)),
    if_neg (fun h => h.elim (fun h1 => h1 hm) (fun h2 => h2 hu)),
    if_neg (fun h => hsec.elim (fun h1 => h.1 h1) (fun h2 => h.2 h2)), hb]

/-- C8: for an admitted webhook update, the 200 acknowledgement is the
first observable server action — every notification send, workflow dispatch
and status query of the command execution comes strictly after it in the
server's event order, so the acknowledgement never waits for command
execution to complete. -/
theorem c8_ack_before_processing (cfg : WebCfg) (env : WebEnv)
    (req : HttpReq) (u : TelegramUpdate)
    (hm : req.method = "POST") (hu : req.url = cfg.webhookPath)
    (hsec : cfg.webhookSecret = "" ∨ req.secretHeader = some cfg.webhookSecret)
    (hb : req.body = Body.parsed u) :
    serverHandle cfg env req =
      SrvEvent.respond 200 :: (handleEvents env u).map SrvEvent.eff :=
  serverHandle_admitted cfg env req u hm hu hsec hb

/-- Witness for C8: a concrete authorized `/test` request with a matching
secret is acknowledged with 200 before its liveness notification. -/
theorem c8_witness :
    serverHandle c8cfg c8env c8req =
      [SrvEvent.respond 200,
       SrvEvent.eff (Eff.send "✅ Bot is alive and running (webhook mode).")] :=
  (c8_ack_before_processing c8cfg c8env c8req c8u rfl rfl (Or.inr rfl)
    rfl).trans (by rfl)

/-- No response event hides among mapped dispatch-logic effects. -/
theorem filter_isRespond_map_eff (l : List Eff) :
    (l.map SrvEvent.eff).filter SrvEvent.isRespond = [] := by
  induction l with
  | nil => rfl
  | cons e rest ih => simp [SrvEvent.isRespond, ih]

/-- C9 counterexample: with every notification send failing at the network
level, a batch of two authorized `/test` updates produces only the first
update's send attempt — the second update is never handled and no offset is
written: the poll cycle aborts its remaining work instead of continuing
past the transport failure. -/
theorem c9_counterexample :
    pollMain c9env [] [] c9fetch =
      (none, [Eff.send "✅ Bot is alive and running."]) := by rfl

/-- C9 amended: a notifier transport failure never crashes the process, but
its containment differs by mode. In poller mode it is caught only by the
top-level catch: the cycle returns cleanly with no state write and with
exactly the effects performed up to the throw (remaining updates of the
batch are abandoned). In webhook mode the request handler's catch absorbs
it after the 200 acknowledgement: even with every send failing, the one 200
response is the only response the request produces. -/
theorem c9_send_failure_contained (env : PollerEnv)
    (store0 store1 : List (String × String)) (fr : FetchResult) (st : St)
    (cfg : WebCfg) (wenv : WebEnv) (req : HttpReq) (u : TelegramUpdate)
    (hcred : ¬(env.token = "" ∨ env.chatId = ""))
    (hok : fr.httpOk = true) (hdok : fr.ok = true) (hne : fr.result ≠ [])
    (hloop : pollLoopP env fr.result
      (jsNumberNat ((lookupKey store0 BOT_UPDATE_KEY).getD "0")) St.init =
      Except.error st)
    (hfail : ∀ n, wenv.sendOk n = false)
    (hm : req.method = "POST") (hu : req.url = cfg.webhookPath)
    (hsec : cfg.webhookSecret = "") (hb : req.body = Body.parsed u) :
    pollMain env store0 store1 fr = (none, st.trace) ∧
    (serverHandle cfg wenv req).filter SrvEvent.isRespond =
      [SrvEvent.respond 200] := by
  constructor
  · unfold pollMain
    rw [if_neg hcred, if_neg (by simp [hok]), if_neg (by simp [hdok, hne]),
      hloop]
  · rw [serverHandle_admitted cfg wenv req u hm hu (Or.inl hsec) hb]
    simp [List.filter, SrvEvent.isRespond, filter_isRespond_map_eff]

/-- Witness for C9's amended statement: concrete failing-send environments
in both modes. -/
theorem c9_witness :
    pollMain c9env [] [] c9wfetch =
      (none, [Eff.send "✅ Bot is alive and running."]) ∧
    (serverHandle c9wcfg c9wweb c9wreq).filter SrvEvent.isRespond =
      [SrvEvent.respond 200] :=
  c9_send_failure_contained c9env [] [] c9wfetch
    ⟨1, 0, [Eff.send "✅ Bot is alive and running."]⟩ c9wcfg c9wweb c9wreq
    c9wu (by decide) rfl rfl (by decide) (by rfl) (fun _ => rfl) rfl rfl rfl
    rfl

/-- C10: when no webhook secret is configured (unset or empty environment
variable), the server skips the secret-token comparison entirely: every
POST to the webhook path with a well-formed update body — whatever the
`x-telegram-bot-api-secret-token` header holds, including an arbitrary
wrong value or no header at all (`req.secretHeader` is universally
quantified through `req`) — is acknowledged 200 and dispatched. -/
theorem c10_no_secret_check (cfg : WebCfg) (env : WebEnv) (req : HttpReq)
    (u : TelegramUpdate)
    (hsec : cfg.webhookSecret = "")
    (hm : req.method = "POST") (hu : req.url = cfg.webhookPath)
    (hb : req.body = Body.parsed u) :
    serverHandle cfg env req =
      SrvEvent.respond 200 :: (handleEvents env u).map SrvEvent.eff :=
  serverHandle_admitted cfg env req u hm hu (Or.inl hsec) hb

/-- Witness for C10: a request carrying a wrong secret header is still
admitted and dispatched because no secret is configured. -/
theorem c10_witness :
    serverHandle c10cfg c10env c10req =
      SrvEvent.respond 200 :: (handleEvents c10env c10u).map SrvEvent.eff :=
  c10_no_secret_check c10cfg c10env c10req c10u rfl rfl rfl rfl

end TgBot
